import Mathlib

/-!
Shallow embedding of the Tavily MCP server (src/servers/tavily/tavily_mcp.py)
and proofs about its request handling.

The server is a JSON-over-HTTP shim: TavilyMCP holds the provider credential
and wraps the external client call, catching every exception into a value-level
error payload; MCPRequestHandler routes POST /mcp, POST /search, GET /health
and GET /mcp-config, validates the inbound JSON body, applies defaults and
reshapes the provider result.

External pieces, namely the Tavily client, json.loads on the request body and
the configuration file read, are modelled as oracle parameters: the embedding
quantifies over their outcomes. Python-level dynamic operations on decoded
JSON values (membership test, string indexing, .get, len) are modelled
per-type, including the exceptions they raise, since the handler maps any
exception escaping the try block to a 500 response carrying str(e).
-/

namespace TavilyServer

/-- A decoded JSON value, the result of json.loads / the provider response. -/
inductive Json where
  | null
  | bool (b : Bool)
  | num (n : Int)
  | str (s : String)
  | arr (xs : List Json)
  | obj (kvs : List (String × Json))

/-- The Python type name of a decoded JSON value, as used in exception text. -/
def Json.typeName : Json → String
  | .null => "NoneType"
  | .bool _ => "bool"
  | .num _ => "int"
  | .str _ => "str"
  | .arr _ => "list"
  | .obj _ => "dict"

/-- First-match lookup in a decoded JSON object (Python dict keys are unique,
so first-match agrees with dict lookup). -/
def lookupKey (kvs : List (String × Json)) (k : String) : Option Json :=
  match kvs with
  | [] => none
  | (k₁, v) :: rest => if k₁ = k then some v else lookupKey rest k

/-- Result of evaluating a Python expression: a value, or a raised exception
carrying str(e). -/
inductive PyResult (α : Type) where
  | val (a : α)
  | exc (msg : String)

/-- Python equality between a JSON value and a string: only an equal string
compares equal. -/
def jsonStrEq (j : Json) (k : String) : Bool :=
  match j with
  | .str s => s == k
  | _ => false

/-- Substring test, modelling Python `k in s` for strings: the empty string is
a substring of everything. -/
def strContains (s pat : String) : Bool :=
  pat.isEmpty || (s.splitOn pat).length != 1

/-- str(KeyError(k)) in Python is the repr of the key, i.e. the quoted key. -/
def keyErrorMsg (k : String) : String :=
  "\x27" ++ k ++ "\x27"

/-- Python membership test k in j for a string key, per type of j: dict key
membership, list element membership, substring test for strings; other types
raise TypeError. -/
def pyContains (j : Json) (k : String) : PyResult Bool :=
  match j with
  | .obj kvs => .val (lookupKey kvs k).isSome
  | .arr xs => .val (xs.any (fun e => jsonStrEq e k))
  | .str s => .val (strContains s k)
  | _ => .exc ("argument of type \x27" ++ j.typeName ++ "\x27 is not iterable")

/-- Python indexing j[k] with a string key: dict lookup (KeyError when the key
is absent); lists and strings reject string indices; other types are not
subscriptable. -/
def pyIndexStr (j : Json) (k : String) : PyResult Json :=
  match j with
  | .obj kvs =>
    match lookupKey kvs k with
    | some v => .val v
    | none => .exc (keyErrorMsg k)
  | .arr _ => .exc "list indices must be integers or slices, not str"
  | .str _ => .exc "string indices must be integers"
  | _ => .exc ("\x27" ++ j.typeName ++ "\x27 object is not subscriptable")

/-- Python j.get(k, default): a dict method; any other type raises
AttributeError. -/
def pyGet (j : Json) (k : String) (default : Json) : PyResult Json :=
  match j with
  | .obj kvs => .val ((lookupKey kvs k).getD default)
  | _ => .exc ("\x27" ++ j.typeName ++ "\x27 object has no attribute \x27get\x27")

/-- Python len(j): length of a list, string or dict; other types raise
TypeError. -/
def pyLen (j : Json) : PyResult Nat :=
  match j with
  | .arr xs => .val xs.length
  | .str s => .val s.length
  | .obj kvs => .val kvs.length
  | _ => .exc ("object of type \x27" ++ j.typeName ++ "\x27 has no len()")

/-- The JSON body { "error": msg }, used both for the gateway error payload
and for HTTP error responses. -/
def errObj (msg : String) : Json :=
  Json.obj [("error", Json.str msg)]

/-- Outcome of one call to the external Tavily client: a decoded response, or
a raised exception carrying str(e). -/
inductive ProviderOutcome where
  | ok (response : Json)
  | exc (msg : String)

/-- The external Tavily client, as an oracle over (query, max_results,
search_depth). The handler passes the decoded JSON values through unvalidated,
so all three arguments are JSON values. -/
def Provider : Type :=
  Json → Json → Json → ProviderOutcome

/-- TavilyMCP.search: delegate to the client; any exception is caught and
converted to the value { "error": str(e) } (tavily_mcp.py lines 80-91). -/
def TavilyMCP.search (provider : Provider) (query max_results search_depth : Json) : Json :=
  match provider query max_results search_depth with
  | .ok response => response
  | .exc e => errObj e

/-- Python `a or b` on optional strings: a when it is a non-empty string,
otherwise b. -/
def pyOrStr (a b : Option String) : Option String :=
  match a with
  | some s => if s = "" then b else some s
  | none => b

/-- TavilyMCP constructor (tavily_mcp.py lines 72-78): the credential is the
api_key argument or, when that is None or empty, the TAVILY_API_KEY
environment value; a missing or empty result raises ValueError. On success the
held credential is returned. -/
def TavilyMCP.init (api_key envKey : Option String) : Except String String :=
  match pyOrStr api_key envKey with
  | none => .error "Tavily API key is required"
  | some k => if k = "" then .error "Tavily API key is required" else .ok k

/-- An HTTP response: status code and JSON body. -/
structure Response where
  status : Nat
  body : Json

/-- The arguments of one delegated call to the external client. -/
structure ProviderCall where
  query : Json
  max_results : Json
  search_depth : Json

/-- Observable outcome of handling one request: the response sent, whether the
request body was read from the socket, and the delegated provider calls made,
in order. -/
structure Outcome where
  response : Response
  bodyRead : Bool
  calls : List ProviderCall

/-- Validation of the decoded /mcp body (tavily_mcp.py lines 122-139): require
"inputs", then inputs."query"; default max_results to 10 and search_depth to
"basic"; finally read inputs["query"]. Any exception becomes a 500 response
with str(e); a failed check becomes a 400 response. -/
def mcpValidate (requestData : Json) : Except Response (Json × Json × Json) :=
  match pyContains requestData "inputs" with
  | .exc e => .error ⟨500, errObj e⟩
  | .val false => .error ⟨400, errObj "Missing \x27inputs\x27 in MCP request"⟩
  | .val true =>
    match pyIndexStr requestData "inputs" with
    | .exc e => .error ⟨500, errObj e⟩
    | .val inputs =>
      match pyContains inputs "query" with
      | .exc e => .error ⟨500, errObj e⟩
      | .val false => .error ⟨400, errObj "Missing \x27query\x27 parameter in inputs"⟩
      | .val true =>
        match pyGet inputs "max_results" (Json.num 10) with
        | .exc e => .error ⟨500, errObj e⟩
        | .val max_results =>
          match pyGet inputs "search_depth" (Json.str "basic") with
          | .exc e => .error ⟨500, errObj e⟩
          | .val search_depth =>
            match pyIndexStr inputs "query" with
            | .exc e => .error ⟨500, errObj e⟩
            | .val q => .ok (q, max_results, search_depth)

/-- Response shaping for /mcp (tavily_mcp.py lines 145-150): read
results["results"], results["query"] and len(results["results"]) in source
order; any exception becomes a 500 response with str(e). -/
def shapeMcp (results search_depth : Json) : Response :=
  match pyIndexStr results "results" with
  | .exc e => ⟨500, errObj e⟩
  | .val resultsField =>
    match pyIndexStr results "query" with
    | .exc e => ⟨500, errObj e⟩
    | .val queryField =>
      match pyLen resultsField with
      | .exc e => ⟨500, errObj e⟩
      | .val count =>
        ⟨200, Json.obj [("results", resultsField), ("query", queryField),
                        ("count", Json.num (count : Int)),
                        ("search_depth", search_depth)]⟩

/-- The /mcp branch of do_POST (tavily_mcp.py lines 112-155). The body oracle
is the result of json.loads on the bytes read: Except.error for malformed
JSON. The declared content length is int(headers.get("Content-Length", 0)),
zero when the header is absent. -/
def mcpPost (provider : Provider) (contentLengthHeader : Option Nat)
    (body : Except Unit Json) : Outcome :=
  if contentLengthHeader.getD 0 = 0 then
    ⟨⟨400, errObj "Empty request body"⟩, false, []⟩
  else
    match body with
    | .error _ => ⟨⟨400, errObj "Invalid JSON in request body"⟩, true, []⟩
    | .ok requestData =>
      match mcpValidate requestData with
      | .error resp => ⟨resp, true, []⟩
      | .ok (q, max_results, search_depth) =>
        let results := TavilyMCP.search provider q max_results search_depth
        ⟨shapeMcp results search_depth, true, [⟨q, max_results, search_depth⟩]⟩

/-- Validation of the decoded /search body (tavily_mcp.py lines 167-179):
require top-level "query"; default max_results to 10 and search_depth to
"basic"; finally read requestData["query"]. -/
def searchValidate (requestData : Json) : Except Response (Json × Json × Json) :=
  match pyContains requestData "query" with
  | .exc e => .error ⟨500, errObj e⟩
  | .val false => .error ⟨400, errObj "Missing \x27query\x27 parameter"⟩
  | .val true =>
    match pyGet requestData "max_results" (Json.num 10) with
    | .exc e => .error ⟨500, errObj e⟩
    | .val max_results =>
      match pyGet requestData "search_depth" (Json.str "basic") with
      | .exc e => .error ⟨500, errObj e⟩
      | .val search_depth =>
        match pyIndexStr requestData "query" with
        | .exc e => .error ⟨500, errObj e⟩
        | .val q => .ok (q, max_results, search_depth)

/-- The /search branch of do_POST (tavily_mcp.py lines 156-187): on success
the gateway result is sent back unmodified with status 200. -/
def searchPost (provider : Provider) (contentLengthHeader : Option Nat)
    (body : Except Unit Json) : Outcome :=
  if contentLengthHeader.getD 0 = 0 then
    ⟨⟨400, errObj "Empty request body"⟩, false, []⟩
  else
    match body with
    | .error _ => ⟨⟨400, errObj "Invalid JSON in request body"⟩, true, []⟩
    | .ok requestData =>
      match searchValidate requestData with
      | .error resp => ⟨resp, true, []⟩
      | .ok (q, max_results, search_depth) =>
        ⟨⟨200, TavilyMCP.search provider q max_results search_depth⟩, true,
         [⟨q, max_results, search_depth⟩]⟩

/-- MCPRequestHandler.do_POST (tavily_mcp.py lines 110-189): dispatch on the
request path; unrouted paths get 404. -/
def do_POST (provider : Provider) (path : String) (contentLengthHeader : Option Nat)
    (body : Except Unit Json) : Outcome :=
  if path = "/mcp" then mcpPost provider contentLengthHeader body
  else if path = "/search" then searchPost provider contentLengthHeader body
  else ⟨⟨404, errObj "Not found"⟩, false, []⟩

/-- MCPRequestHandler.do_GET (tavily_mcp.py lines 191-206). The configuration
file oracle is the result of opening and json.load-ing
tavily_mcp_config.json: Except.error carries str(e) on failure. -/
def do_GET (configFile : Except String Json) (path : String) : Response :=
  if path = "/health" then ⟨200, Json.obj [("status", Json.str "healthy")]⟩
  else if path = "/mcp-config" then
    match configFile with
    | .ok config => ⟨200, config⟩
    | .error e => ⟨500, errObj ("Failed to serve MCP config: " ++ e)⟩
  else ⟨404, errObj "Not found"⟩

/-- The HTTP methods for which the handler defines behaviour. Other verbs are
answered by the Python base class outside this repository. -/
inductive Method where
  | GET
  | POST

/-- One inbound HTTP request as the handler observes it. -/
structure Request where
  method : Method
  path : String
  contentLengthHeader : Option Nat
  body : Except Unit Json

/-- Method dispatch of the handler: POST requests go to do_POST, GET requests
to do_GET. GET requests never read a body and never call the provider. -/
def handle (provider : Provider) (configFile : Except String Json) (req : Request) : Outcome :=
  match req.method with
  | .POST => do_POST provider req.path req.contentLengthHeader req.body
  | .GET => ⟨do_GET configFile req.path, false, []⟩

/-- The four routed method/path pairs of the handler. -/
def routed (m : Method) (p : String) : Bool :=
  match m with
  | .POST => p == "/mcp" || p == "/search"
  | .GET => p == "/health" || p == "/mcp-config"

/-- A provider that always raises, used to instantiate witnesses. -/
def failingProvider : Provider := fun _ _ _ => ProviderOutcome.exc "boom"

/-- Shared helper: a successful string-index j[k] implies that the membership
test k in j evaluates to true (only a dict holding the key can be indexed by a
string without raising). -/
theorem pyIndexStr_val_contains (j : Json) (k : String) (v : Json)
    (h : pyIndexStr j k = .val v) : pyContains j k = .val true := by
  cases j <;> simp [pyIndexStr, pyContains] at h ⊢
  case obj kvs =>
    cases hl : lookupKey kvs k <;> simp [hl] at h ⊢

/-- C4: for every input, the gateway search operation never propagates an
exception: when the provider call raises e it returns the value
with error field str(e), and otherwise it returns the provider response
unchanged. -/
theorem search_never_raises (provider : Provider) (q mr sd : Json) :
    (∀ e, provider q mr sd = .exc e → TavilyMCP.search provider q mr sd = errObj e) ∧
    (∀ r, provider q mr sd = .ok r → TavilyMCP.search provider q mr sd = r) := by
  constructor <;> intro x h <;> simp [TavilyMCP.search, h]

/-- Witness for C4 at a concrete raising provider. -/
theorem search_never_raises_witness :
    TavilyMCP.search failingProvider Json.null Json.null Json.null = errObj "boom" :=
  (search_never_raises failingProvider Json.null Json.null Json.null).1 "boom" rfl

/-- C6: constructing the gateway with an absent or empty api_key argument,
when the environment holds no credential either (absent or empty), always
fails with the ValueError message and never yields an instance. -/
theorem init_missing_key_fails (api_key envKey : Option String)
    (hA : api_key = none ∨ api_key = some "")
    (hE : envKey = none ∨ envKey = some "") :
    TavilyMCP.init api_key envKey = .error "Tavily API key is required" := by
  rcases hA with h | h <;> rcases hE with h₂ | h₂ <;>
    simp [TavilyMCP.init, pyOrStr, h, h₂]

/-- Witness for C6: empty explicit key, no environment variable. -/
theorem init_missing_key_fails_witness :
    TavilyMCP.init (some "") none = .error "Tavily API key is required" :=
  init_missing_key_fails (some "") none (Or.inr rfl) (Or.inl rfl)

/-- C10: constructing the gateway with an empty api_key argument while the
environment holds a non-empty credential succeeds, and the instance holds the
environment-sourced credential. -/
theorem init_empty_arg_uses_env (v : String) (hv : v ≠ "") :
    TavilyMCP.init (some "") (some v) = .ok v := by
  simp [TavilyMCP.init, pyOrStr, hv]

/-- Witness for C10 at a concrete environment credential. -/
theorem init_empty_arg_uses_env_witness :
    TavilyMCP.init (some "") (some "test_api_key") = .ok "test_api_key" :=
  init_empty_arg_uses_env "test_api_key" (by decide)

/-- C9: a POST to /mcp or /search with no Content-Length header is treated as
declared length zero: 400 with the empty-body message, the body never read,
and the outcome identical to an explicit zero declared length. -/
theorem no_content_length_header (provider : Provider) (path : String)
    (body : Except Unit Json) (hpath : path = "/mcp" ∨ path = "/search") :
    do_POST provider path none body =
      ⟨⟨400, errObj "Empty request body"⟩, false, []⟩ ∧
    do_POST provider path none body = do_POST provider path (some 0) body := by
  rcases hpath with h | h <;> subst h <;>
    exact ⟨rfl, rfl⟩

/-- Witness for C9 at path /mcp with a malformed body. -/
theorem no_content_length_header_witness :
    do_POST failingProvider "/mcp" none (.error ()) =
      ⟨⟨400, errObj "Empty request body"⟩, false, []⟩ ∧
    do_POST failingProvider "/mcp" none (.error ()) =
      do_POST failingProvider "/mcp" (some 0) (.error ()) :=
  no_content_length_header failingProvider "/mcp" (.error ()) (Or.inl rfl)

/-- C8: every request whose method/path pair is not POST /mcp, POST /search,
GET /health or GET /mcp-config is answered 404 with body error "Not found". -/
theorem unrouted_404 (provider : Provider) (configFile : Except String Json)
    (req : Request) (h : routed req.method req.path = false) :
    (handle provider configFile req).response = ⟨404, errObj "Not found"⟩ := by
  obtain ⟨m, p, clh, body⟩ := req
  cases m <;> simp [routed] at h <;>
    simp [handle, do_POST, do_GET, h.1, h.2]

/-- Witness for C8 at GET /unknown-path. -/
theorem unrouted_404_witness :
    (handle failingProvider (.error "no file")
      ⟨Method.GET, "/unknown-path", none, .error ()⟩).response =
      ⟨404, errObj "Not found"⟩ :=
  unrouted_404 failingProvider (.error "no file")
    ⟨Method.GET, "/unknown-path", none, .error ()⟩ (by decide)

/-- C7: every POST /search request that passes validation is answered 200
with the gateway result unmodified, whatever shape that result has, including
the gateway error payload. -/
theorem search_result_unmodified (provider : Provider) (clen : Nat)
    (d : List (String × Json)) (q : Json)
    (hclen : clen ≠ 0) (hq : lookupKey d "query" = some q) :
    (searchPost provider (some clen) (.ok (Json.obj d))).response =
      ⟨200, TavilyMCP.search provider q
        ((lookupKey d "max_results").getD (Json.num 10))
        ((lookupKey d "search_depth").getD (Json.str "basic"))⟩ := by
  simp [searchPost, searchValidate, pyContains, pyGet, pyIndexStr, hclen, hq]

/-- Witness for C7: a raising provider surfaces its error payload with
status 200. -/
theorem search_result_unmodified_witness :
    (searchPost failingProvider (some 2)
      (.ok (Json.obj [("query", Json.str "cats")]))).response =
      ⟨200, TavilyMCP.search failingProvider (Json.str "cats")
        ((lookupKey [("query", Json.str "cats")] "max_results").getD (Json.num 10))
        ((lookupKey [("query", Json.str "cats")] "search_depth").getD (Json.str "basic"))⟩ :=
  search_result_unmodified failingProvider 2 [("query", Json.str "cats")]
    (Json.str "cats") (by decide) rfl

/-- C5: a POST /mcp or POST /search request that passes validation issues
exactly one delegated provider call, with the request query, max_results
defaulted to 10 when absent, and search_depth defaulted to "basic" when
absent. -/
theorem one_call_with_defaults (provider : Provider) (clen : Nat)
    (d i : List (String × Json)) (q : Json)
    (hclen : clen ≠ 0)
    (hin : lookupKey d "inputs" = some (Json.obj i))
    (hq : lookupKey i "query" = some q) :
    (mcpPost provider (some clen) (.ok (Json.obj d))).calls =
      [⟨q, (lookupKey i "max_results").getD (Json.num 10),
          (lookupKey i "search_depth").getD (Json.str "basic")⟩] ∧
    (searchPost provider (some clen) (.ok (Json.obj i))).calls =
      [⟨q, (lookupKey i "max_results").getD (Json.num 10),
          (lookupKey i "search_depth").getD (Json.str "basic")⟩] := by
  constructor <;>
    simp [mcpPost, searchPost, mcpValidate, searchValidate, pyContains, pyGet,
          pyIndexStr, hclen, hin, hq]

/-- Witness for C5 at the body inputs.query = "cats" with no optional
fields. -/
theorem one_call_with_defaults_witness :
    (mcpPost failingProvider (some 30)
      (.ok (Json.obj [("inputs", Json.obj [("query", Json.str "cats")])]))).calls =
      [⟨Json.str "cats",
        (lookupKey [("query", Json.str "cats")] "max_results").getD (Json.num 10),
        (lookupKey [("query", Json.str "cats")] "search_depth").getD (Json.str "basic")⟩] ∧
    (searchPost failingProvider (some 30)
      (.ok (Json.obj [("query", Json.str "cats")]))).calls =
      [⟨Json.str "cats",
        (lookupKey [("query", Json.str "cats")] "max_results").getD (Json.num 10),
        (lookupKey [("query", Json.str "cats")] "search_depth").getD (Json.str "basic")⟩] :=
  one_call_with_defaults failingProvider 30
    [("inputs", Json.obj [("query", Json.str "cats")])]
    [("query", Json.str "cats")] (Json.str "cats") (by decide) rfl rfl

/-- C2: a well-formed POST /mcp request whose gateway result is an object
holding a results list and a query field is answered 200 with exactly those
results, the echoed gateway query, the count of results, and the search depth
taken from the request or defaulted. -/
theorem mcp_success_response (provider : Provider) (clen : Nat)
    (d i g : List (String × Json)) (q qEcho : Json) (rs : List Json)
    (hclen : clen ≠ 0)
    (hin : lookupKey d "inputs" = some (Json.obj i))
    (hq : lookupKey i "query" = some q)
    (hgw : TavilyMCP.search provider q
        ((lookupKey i "max_results").getD (Json.num 10))
        ((lookupKey i "search_depth").getD (Json.str "basic")) = Json.obj g)
    (hres : lookupKey g "results" = some (Json.arr rs))
    (hecho : lookupKey g "query" = some qEcho) :
    (mcpPost provider (some clen) (.ok (Json.obj d))).response =
      ⟨200, Json.obj [("results", Json.arr rs), ("query", qEcho),
                      ("count", Json.num (rs.length : Int)),
                      ("search_depth",
                        (lookupKey i "search_depth").getD (Json.str "basic"))]⟩ := by
  simp [mcpPost, mcpValidate, shapeMcp, pyContains, pyGet, pyIndexStr, pyLen,
        hclen, hin, hq, hgw, hres, hecho]

/-- Witness for C2 at the spec example: query "cats", one result item. -/
theorem mcp_success_response_witness :
    (mcpPost
      (fun _ _ _ => ProviderOutcome.ok (Json.obj
        [("query", Json.str "cats"),
         ("results", Json.arr [Json.obj
           [("title", Json.str "T"), ("url", Json.str "u"),
            ("content", Json.str "c"), ("score", Json.num 1)]])]))
      (some 33)
      (.ok (Json.obj [("inputs", Json.obj [("query", Json.str "cats")])]))).response =
      ⟨200, Json.obj
        [("results", Json.arr [Json.obj
           [("title", Json.str "T"), ("url", Json.str "u"),
            ("content", Json.str "c"), ("score", Json.num 1)]]),
         ("query", Json.str "cats"),
         ("count", Json.num (([Json.obj
           [("title", Json.str "T"), ("url", Json.str "u"),
            ("content", Json.str "c"), ("score", Json.num 1)]].length : Nat) : Int)),
         ("search_depth",
          (lookupKey [("query", Json.str "cats")] "search_depth").getD
            (Json.str "basic"))]⟩ :=
  mcp_success_response
    (fun _ _ _ => ProviderOutcome.ok (Json.obj
      [("query", Json.str "cats"),
       ("results", Json.arr [Json.obj
         [("title", Json.str "T"), ("url", Json.str "u"),
          ("content", Json.str "c"), ("score", Json.num 1)]])]))
    33 [("inputs", Json.obj [("query", Json.str "cats")])]
    [("query", Json.str "cats")]
    [("query", Json.str "cats"),
     ("results", Json.arr [Json.obj
       [("title", Json.str "T"), ("url", Json.str "u"),
        ("content", Json.str "c"), ("score", Json.num 1)]])]
    (Json.str "cats") (Json.str "cats")
    [Json.obj [("title", Json.str "T"), ("url", Json.str "u"),
               ("content", Json.str "c"), ("score", Json.num 1)]]
    (by decide) rfl rfl rfl rfl rfl

/-- C1: a well-formed POST /mcp request whose gateway result is the error
payload (an object with only an error key) is answered 500, and the error
field of the body is the KeyError message for the missing results key, not
the provider error message. -/
theorem mcp_error_payload_500 (provider : Provider) (clen : Nat)
    (d i : List (String × Json)) (q : Json) (m : String)
    (hclen : clen ≠ 0)
    (hin : lookupKey d "inputs" = some (Json.obj i))
    (hq : lookupKey i "query" = some q)
    (hgw : TavilyMCP.search provider q
        ((lookupKey i "max_results").getD (Json.num 10))
        ((lookupKey i "search_depth").getD (Json.str "basic")) = errObj m) :
    (mcpPost provider (some clen) (.ok (Json.obj d))).response =
      ⟨500, errObj (keyErrorMsg "results")⟩ ∧
    (m ≠ keyErrorMsg "results" →
      (mcpPost provider (some clen) (.ok (Json.obj d))).response.body ≠ errObj m) := by
  have hmain : (mcpPost provider (some clen) (.ok (Json.obj d))).response =
      ⟨500, errObj (keyErrorMsg "results")⟩ := by
    simp [mcpPost, mcpValidate, shapeMcp, pyContains, pyGet, pyIndexStr,
          errObj, lookupKey, keyErrorMsg, hclen, hin, hq, hgw]
  refine ⟨hmain, fun hne hbody => hne ?_⟩
  rw [hmain] at hbody
  simpa [errObj] using hbody.symm

/-- Witness for C1: provider raises "boom", the response is 500 with the
KeyError message, which differs from "boom". -/
theorem mcp_error_payload_500_witness :
    (mcpPost failingProvider (some 33)
      (.ok (Json.obj [("inputs", Json.obj [("query", Json.str "cats")])]))).response =
      ⟨500, errObj (keyErrorMsg "results")⟩ ∧
    ("boom" ≠ keyErrorMsg "results" →
      (mcpPost failingProvider (some 33)
        (.ok (Json.obj [("inputs", Json.obj [("query", Json.str "cats")])]))).response.body ≠
        errObj "boom") :=
  mcp_error_payload_500 failingProvider 33
    [("inputs", Json.obj [("query", Json.str "cats")])]
    [("query", Json.str "cats")] (Json.str "cats") "boom"
    (by decide) rfl rfl rfl

/-- An inbound POST body that is a client input error in the sense of the
spec: zero declared content length, malformed JSON, a decoded /mcp body whose
membership test for "inputs" is false, a decoded /mcp body whose inputs value
fails the membership test for "query", or a decoded /search body whose
membership test for "query" is false. -/
def clientErrorInput (path : String) (contentLengthHeader : Option Nat)
    (body : Except Unit Json) : Prop :=
  contentLengthHeader.getD 0 = 0
  ∨ body = .error ()
  ∨ (path = "/mcp" ∧ ∃ j, body = .ok j ∧ pyContains j "inputs" = .val false)
  ∨ (path = "/mcp" ∧ ∃ j i, body = .ok j ∧ pyIndexStr j "inputs" = .val i ∧
      pyContains i "query" = .val false)
  ∨ (path = "/search" ∧ ∃ j, body = .ok j ∧ pyContains j "query" = .val false)

/-- C3: every POST to /mcp or /search whose input is a client error is
answered 400 with an object holding an error string, and the provider is
never called. -/
theorem client_error_400_no_call (provider : Provider) (path : String)
    (clh : Option Nat) (body : Except Unit Json)
    (hpath : path = "/mcp" ∨ path = "/search")
    (herr : clientErrorInput path clh body) :
    (do_POST provider path clh body).response.status = 400 ∧
    (∃ s, (do_POST provider path clh body).response.body = errObj s) ∧
    (do_POST provider path clh body).calls = [] := by
  by_cases hz : clh.getD 0 = 0
  · rcases hpath with h | h <;> subst h <;>
      refine ⟨?_, ⟨"Empty request body", ?_⟩, ?_⟩ <;>
      simp [do_POST, mcpPost, searchPost, hz]
  · rcases herr with h0 | h0 | ⟨hp, j, hb, hc⟩ | ⟨hp, j, i, hb, hx, hc⟩ | ⟨hp, j, hb, hc⟩
    · exact absurd h0 hz
    · rcases hpath with h | h <;> subst h <;> subst h0 <;>
        refine ⟨?_, ⟨"Invalid JSON in request body", ?_⟩, ?_⟩ <;>
        simp [do_POST, mcpPost, searchPost, hz]
    · subst hp; subst hb
      refine ⟨?_, ⟨"Missing \x27inputs\x27 in MCP request", ?_⟩, ?_⟩ <;>
        simp [do_POST, mcpPost, mcpValidate, hz, hc]
    · subst hp; subst hb
      have hct := pyIndexStr_val_contains j "inputs" i hx
      refine ⟨?_, ⟨"Missing \x27query\x27 parameter in inputs", ?_⟩, ?_⟩ <;>
        simp [do_POST, mcpPost, mcpValidate, hz, hct, hx, hc]
    · subst hp; subst hb
      refine ⟨?_, ⟨"Missing \x27query\x27 parameter", ?_⟩, ?_⟩ <;>
        simp [do_POST, searchPost, searchValidate, hz, hc]

/-- Witness for C3: POST /search with a decoded empty object, which has no
query key. -/
theorem client_error_400_no_call_witness :
    (do_POST failingProvider "/search" (some 2) (.ok (Json.obj []))).response.status = 400 ∧
    (∃ s, (do_POST failingProvider "/search" (some 2)
      (.ok (Json.obj []))).response.body = errObj s) ∧
    (do_POST failingProvider "/search" (some 2) (.ok (Json.obj []))).calls = [] :=
  client_error_400_no_call failingProvider "/search" (some 2) (.ok (Json.obj []))
    (Or.inr rfl)
    (Or.inr (Or.inr (Or.inr (Or.inr ⟨rfl, Json.obj [], rfl, rfl⟩))))

end TavilyServer
